import Mathlib

set_option maxRecDepth 100000

/-!
Verification of the zgrab2 SSH scan module (fork TrueSkrillor/zgrab2).

The development shallowly embeds the two source files:
  * `modules/ssh.go` — the scanner: flag set, configuration assembly, the
    `Scan` control flow (dial, deadline, handshake, close, classification);
  * the `ssh` package file holding `MakeSSHConfig`, the four
    `ClientConfig.Set*` preference setters and `validateAlgorithms`.

External collaborators (the `lib/ssh` handshake driver, the zgrab2
framework's dialer and status lookup, the Go standard library string
helpers) are not part of the source tree; where a claim depends on them
they are modelled from the specification, each such definition carrying a
doc comment starting with `Modelled from the spec:`.

Go strings are embedded as Lean `String`; the Go standard-library helpers
`strings.Split` (with separator `","`), `strings.TrimSpace` and
`strings.Contains` are given executable structural-recursive embeddings
over `List Char` so that every definition evaluates inside the kernel.
-/

namespace ZgrabSSH

/-- Embedding of Go `strings.Split(s, ",")` restricted to the one-character
separator actually used by the source: splitting `""` yields `[""]` (a Go
`strings.Split` always returns at least one element). Recursion is over the
character list so the kernel can evaluate it. -/
def splitCommaAux : List Char → List (List Char)
  | [] => [[]]
  | c :: rest =>
    match splitCommaAux rest with
    | h :: t => if c = ',' then [] :: h :: t else (c :: h) :: t
    | [] => [[]]

/-- Go `strings.Split(s, ",")` on a Lean `String`. -/
def goSplitComma (s : String) : List String := (splitCommaAux s.data).map String.mk

/-- White-space predicate of Go `unicode.IsSpace` restricted to the ASCII
white space relevant to SSH banners. -/
def isSpaceChar (c : Char) : Bool :=
  c = ' ' || c = '\t' || c = '\n' || c = '\r' || c = '\x0b' || c = '\x0c'

/-- Embedding of Go `strings.TrimSpace`: drop white space from both ends. -/
def goTrimSpace (s : String) : String :=
  String.mk (((s.data.dropWhile isSpaceChar).reverse.dropWhile isSpaceChar).reverse)

/-- Helper for `goContains`: does `pat` occur as a contiguous sublist? -/
def containsAux (pat : List Char) : List Char → Bool
  | [] => pat.isEmpty
  | c :: rest => pat.isPrefixOf (c :: rest) || containsAux pat rest

/-- Embedding of Go `strings.Contains(s, sub)`. -/
def goContains (s sub : String) : Bool := containsAux sub.data s.data

/-- Helper `contains` used by `validateAlgorithms`: slice membership. -/
def contains (l : List String) (s : String) : Bool := l.contains s

/-- The error message built by `validateAlgorithms`:
`errors.New(fmt.Sprintf("algorithm not supported: \"%s\"", alg))`. -/
def algNotSupportedMsg (alg : String) : String :=
  "algorithm not supported: \"" ++ alg ++ "\""

/-- The loop body of `validateAlgorithms`: walk the comma-split tokens,
append each supported token to the accumulator, and fail on the first
unsupported token, returning no list (Go returns `nil, err`; the embedding
returns `Except.error`). -/
def validateAlgorithmsLoop (supported : List String) :
    List String → List String → Except String (List String)
  | [], algs => .ok algs
  | alg :: rest, algs =>
    if contains supported alg then
      validateAlgorithmsLoop supported rest (algs ++ [alg])
    else
      .error (algNotSupportedMsg alg)

/-- `validateAlgorithms(value, supported)` from the `ssh` package source:
split the raw string on commas and membership-test every token. -/
def validateAlgorithms (value : String) (supported : List String) :
    Except String (List String) :=
  validateAlgorithmsLoop supported (goSplitComma value) []

/-- Modelled from the spec: the Algorithm Catalog entry `supportedKexAlgos`
lives in `lib/ssh`, which is not under the provided source tree. The spec
fixes an immutable process-wide catalog and requires the documented default
preference strings to validate, so the catalog is modelled as the documented
default key-exchange ordering of `modules/ssh.go`. -/
def supportedKexAlgos : List String :=
  ["curve25519-sha256", "curve25519-sha256@libssh.org", "ecdh-sha2-nistp256",
   "ecdh-sha2-nistp384", "ecdh-sha2-nistp521", "diffie-hellman-group14-sha256",
   "diffie-hellman-group14-sha1", "diffie-hellman-group1-sha1",
   "diffie-hellman-group-exchange-sha256", "diffie-hellman-group-exchange-sha1"]

/-- Modelled from the spec: the Algorithm Catalog entry
`supportedHostKeyAlgos` of `lib/ssh` (not under the source tree), modelled as
the documented default host-key ordering of `modules/ssh.go`. -/
def supportedHostKeyAlgos : List String :=
  ["ssh-ed25519", "ecdsa-sha2-nistp256", "ecdsa-sha2-nistp384",
   "ecdsa-sha2-nistp521", "rsa-sha2-512", "rsa-sha2-256", "ssh-rsa", "ssh-dss",
   "ssh-ed25519-cert-v01@openssh.com", "ecdsa-sha2-nistp256-cert-v01@openssh.com",
   "ecdsa-sha2-nistp384-cert-v01@openssh.com", "ecdsa-sha2-nistp521-cert-v01@openssh.com",
   "rsa-sha2-512-cert-v01@openssh.com", "rsa-sha2-256-cert-v01@openssh.com",
   "ssh-rsa-cert-v01@openssh.com", "ssh-dss-cert-v01@openssh.com"]

/-- Modelled from the spec: the Algorithm Catalog entry `supportedCiphers`
of `lib/ssh` (not under the source tree), modelled as the documented default
cipher ordering of `modules/ssh.go`. -/
def supportedCiphers : List String :=
  ["chacha20-poly1305@openssh.com", "aes128-gcm@openssh.com",
   "aes256-gcm@openssh.com", "aes128-ctr", "aes192-ctr", "aes256-ctr",
   "aes128-cbc", "arcfour256", "arcfour128", "arcfour", "3des-cbc"]

/-- Modelled from the spec: the Algorithm Catalog entry `supportedMACs` of
`lib/ssh` (not under the source tree), modelled as the documented default MAC
ordering of `modules/ssh.go`. -/
def supportedMACs : List String :=
  ["hmac-sha2-256-etm@openssh.com", "hmac-sha2-256", "hmac-sha1", "hmac-sha1-96"]

/-- The `ssh.ClientConfig` fields read or written by the embedded sources.
Field defaults are the Go zero values, so `new(ssh.ClientConfig)` is `{}`.
The function-valued fields `BannerCallback` and `HostKeyCallback` and the
`ConnLog` pointer are threaded explicitly through the handshake model rather
than stored, keeping the record first-order and decidably comparable. -/
structure ClientConfig where
  Timeout : Nat := 0
  ClientVersion : String := ""
  HelloOnly : Bool := false
  KeyExchanges : List String := []
  HostKeyAlgorithms : List String := []
  Ciphers : List String := []
  MACs : List String := []
  Verbose : Bool := false
  CollectExtensions : Bool := false
  CollectUserAuth : Bool := false
  DontAuthenticate : Bool := false
  GexMinBits : Nat := 0
  GexMaxBits : Nat := 0
  GexPreferredBits : Nat := 0
deriving DecidableEq, Repr

/-- `MakeSSHConfig` from the `ssh` package source: a zero config with the
four preference lists set to the full catalogs. -/
def MakeSSHConfig : ClientConfig :=
  { KeyExchanges := supportedKexAlgos
    HostKeyAlgorithms := supportedHostKeyAlgos
    Ciphers := supportedCiphers
    MACs := supportedMACs }

/-- `(*ClientConfig).SetKexAlgorithms` — the Go method mutates its receiver;
the embedding returns the error result paired with the post-state. -/
def SetKexAlgorithms (c : ClientConfig) (value : String) :
    Option String × ClientConfig :=
  match validateAlgorithms value supportedKexAlgos with
  | .error e => (some e, c)
  | .ok algs => (none, { c with KeyExchanges := algs })

/-- `(*ClientConfig).SetHostKeyAlgorithms`. -/
def SetHostKeyAlgorithms (c : ClientConfig) (value : String) :
    Option String × ClientConfig :=
  match validateAlgorithms value supportedHostKeyAlgos with
  | .error e => (some e, c)
  | .ok algs => (none, { c with HostKeyAlgorithms := algs })

/-- `(*ClientConfig).SetCiphers`. -/
def SetCiphers (c : ClientConfig) (value : String) :
    Option String × ClientConfig :=
  match validateAlgorithms value supportedCiphers with
  | .error e => (some e, c)
  | .ok algs => (none, { c with Ciphers := algs })

/-- `(*ClientConfig).SetMACs`. -/
def SetMACs (c : ClientConfig) (value : String) :
    Option String × ClientConfig :=
  match validateAlgorithms value supportedMACs with
  | .error e => (some e, c)
  | .ok algs => (none, { c with MACs := algs })

/-- The `SSHFlags` of `modules/ssh.go` (the fields the scanner reads;
`ConnectTimeout` comes from the embedded zgrab2 `BaseFlags`). Durations are
embedded as `Nat` nanosecond counts, `0` meaning "no timeout" as in Go. -/
structure SSHFlags where
  ClientID : String := "SSH-2.0-Go"
  KexAlgorithms : String := ""
  HostKeyAlgorithms : String := ""
  Ciphers : String := ""
  MACs : String := ""
  CollectExtensions : Bool := false
  CollectUserAuth : Bool := false
  GexMinBits : Nat := 1024
  GexMaxBits : Nat := 8192
  GexPreferredBits : Nat := 2048
  HelloOnly : Bool := false
  ConnectTimeout : Nat := 0
  Verbose : Bool := false
deriving DecidableEq, Repr

/-- Modelled from the spec: the kind of a Go `error` value, as far as the
Status Classifier distinguishes them. The classifier taxonomy (spec section
4.4) keys on whether the cause was deadline expiry, a connection-level
failure, or anything else; `fmt.Errorf` wrapping with `%w` preserves the
kind (`errors.Is` unwraps). -/
inductive ErrKind where
  | timeoutErr
  | connErr
  | otherErr
deriving DecidableEq, Repr

/-- A Go `error` value: its classifier-relevant kind plus its message. -/
structure GoError where
  kind : ErrKind
  msg : String
deriving DecidableEq, Repr

/-- Embedding of Go `fmt.Errorf(pre + "%w", e)`: prefix the message, keep
the underlying kind (the wrapped error is still the cause chain). -/
def wrapErr (pre : String) (e : GoError) : GoError := ⟨e.kind, pre ++ e.msg⟩

/-- Modelled from the spec: the closed status taxonomy of spec section 6 —
`success`, `connection-error`, `handshake-error`, `timeout`, `unknown-error`
(the zgrab2 status constants live outside the source tree). -/
inductive ScanStatus where
  | success
  | connection_error
  | handshake_error
  | timeout
  | unknown_error
deriving DecidableEq, Repr

/-- Modelled from the spec: `zgrab2.TryGetScanStatus` is framework code not
under the source tree. Spec section 4.4: no error maps to success, deadline
expiry to timeout, connection-establishment failure to connection-error, and
anything uncategorized to the generic unknown-error. -/
def TryGetScanStatus : Option GoError → ScanStatus
  | none => .success
  | some e =>
    match e.kind with
    | .timeoutErr => .timeout
    | .connErr => .connection_error
    | .otherErr => .unknown_error

/-- Modelled from the spec: the `ssh.HandshakeLog` record of `lib/ssh` (not
under the source tree). Spec section 3: banner string (trimmed), negotiated
algorithm choices per category, host key material, advertised extensions,
advertised userauth method names. Zero values model unset fields. -/
structure HandshakeLog where
  Banner : String := ""
  KexAlgorithm : String := ""
  HostKeyAlgorithm : String := ""
  CipherAlgorithm : String := ""
  MACAlgorithm : String := ""
  HostKey : String := ""
  Extensions : List String := []
  UserAuthMethods : List String := []
deriving DecidableEq, Repr

/-- The banner callback closure installed by `Scan` (`modules/ssh.go`): store
the banner with surrounding white space trimmed into the log and return no
error. The Go closure mutates the `data` object it captured; the embedding
takes the log as an explicit argument. -/
def bannerCallback (data : HandshakeLog) (banner : String) :
    HandshakeLog × Option GoError :=
  ({ data with Banner := goTrimSpace banner }, none)

/-- Modelled from the spec: the observable behaviour of the remote server
and the handshake driver for one probe — which raw banner (if any) arrived
during VersionExchange, whether the handshake then failed and with what
error, and the artifacts the driver records on success. -/
structure DriverBehavior where
  banner : Option String := none
  result : Option GoError := none
  kex : String := ""
  hostKeyAlg : String := ""
  cipher : String := ""
  mac : String := ""
  hostKey : String := ""
  extensions : List String := []
  authMethods : List String := []
deriving DecidableEq, Repr

/-- Modelled from the spec: `ssh.NewClientConn` — the `lib/ssh` handshake
driver, not under the source tree. Per spec section 4.3 it runs the phases
sequentially: during VersionExchange it invokes the configured banner
callback as soon as the banner is received (a callback error is terminal);
a later-phase failure returns the log as populated so far together with the
error; on success the driver has recorded the negotiated artifacts into the
log, honouring the collection policy flags. The first component is the final
state of the caller-owned `ConnLog` object, the second the returned error. -/
def NewClientConn (cfg : ClientConfig)
    (callback : HandshakeLog → String → HandshakeLog × Option GoError)
    (data : HandshakeLog) (b : DriverBehavior) : HandshakeLog × Option GoError :=
  let afterBanner : HandshakeLog × Option GoError :=
    match b.banner with
    | none => (data, none)
    | some raw => callback data raw
  match afterBanner with
  | (d, some e) => (d, some e)
  | (d, none) =>
    match b.result with
    | some e => (d, some e)
    | none =>
      ({ d with
          KexAlgorithm := b.kex
          HostKeyAlgorithm := b.hostKeyAlg
          CipherAlgorithm := b.cipher
          MACAlgorithm := b.mac
          HostKey := b.hostKey
          Extensions := if cfg.CollectExtensions then b.extensions else []
          UserAuthMethods := if cfg.CollectUserAuth then b.authMethods else [] },
        none)

/-- Modelled from the spec: the behaviour of the external collaborators for
one `Scan` invocation — dial outcome, `SetDeadline` outcome, driver/server
behaviour, and the outcome of the deferred `Close`. -/
structure World where
  dial : Option GoError := none
  setDeadlineErr : Option GoError := none
  driver : DriverBehavior := {}
  closeErr : Option GoError := none
deriving DecidableEq, Repr

/-- The value of one `Scan` run: either the process aborted via `log.Fatal`
during configuration assembly, or `Scan` returned a
`(status, data, error)` triple, alongside the warnings written via
`log.Errorf` by the deferred close handler. -/
inductive ScanResult where
  | fatal (msg : String)
  | ret (status : ScanStatus) (data : Option HandshakeLog)
      (err : Option GoError) (logged : List String)
deriving DecidableEq, Repr

/-- The status component of a returned triple, `none` on the fatal path. -/
def ScanResult.statusOf : ScanResult → Option ScanStatus
  | .fatal _ => none
  | .ret s _ _ _ => some s

/-- The data component of a returned triple, `none` on the fatal path. -/
def ScanResult.dataOf : ScanResult → Option (Option HandshakeLog)
  | .fatal _ => none
  | .ret _ d _ _ => some d

/-- The error component of a returned triple, `none` on the fatal path. -/
def ScanResult.errOf : ScanResult → Option (Option GoError)
  | .fatal _ => none
  | .ret _ _ e _ => some e

/-- The warnings logged during the run. -/
def ScanResult.loggedOf : ScanResult → List String
  | .fatal _ => []
  | .ret _ _ _ l => l

/-- A `ScanResult` plus whether the dialer was ever invoked. -/
structure ScanTrace where
  result : ScanResult
  dialerInvoked : Bool
deriving DecidableEq, Repr

/-- The configuration-assembly prefix of `Scan` (`modules/ssh.go` lines
96-124): build the `ssh.ClientConfig` from the flags, calling the four
setters in source order (host-key, kex, ciphers, MACs); a setter error is
`log.Fatal`, embedded as `Except.error`. -/
def buildConfig (f : SSHFlags) : Except String ClientConfig :=
  let c0 : ClientConfig :=
    { Timeout := f.ConnectTimeout
      ClientVersion := f.ClientID
      HelloOnly := f.HelloOnly }
  match SetHostKeyAlgorithms c0 f.HostKeyAlgorithms with
  | (some e, _) => .error e
  | (none, c1) =>
    match SetKexAlgorithms c1 f.KexAlgorithms with
    | (some e, _) => .error e
    | (none, c2) =>
      match SetCiphers c2 f.Ciphers with
      | (some e, _) => .error e
      | (none, c3) =>
        match SetMACs c3 f.MACs with
        | (some e, _) => .error e
        | (none, c4) =>
          .ok { c4 with
                Verbose := f.Verbose
                CollectExtensions := f.CollectExtensions
                CollectUserAuth := f.CollectUserAuth
                DontAuthenticate := true
                GexMinBits := f.GexMinBits
                GexMaxBits := f.GexMaxBits
                GexPreferredBits := f.GexPreferredBits }

/-- The deferred close handler of `Scan` (`modules/ssh.go` lines 142-147):
a close error whose message contains "use of closed network connection" is
suppressed; any other close error is logged via `log.Errorf`. Because the
return values of `Scan` are unnamed, the assignment to `err` inside the
deferred closure cannot alter what `Scan` returns. -/
def closeLogging (target : String) (closeErr : Option GoError) : List String :=
  match closeErr with
  | none => []
  | some ce =>
    if goContains ce.msg "use of closed network connection" then []
    else ["error closing SSH client for target " ++ target ++ ": " ++ ce.msg]

/-- The handshake tail of `Scan` (`modules/ssh.go` lines 137-151): run
`ssh.NewClientConn` on a fresh `HandshakeLog`; on error return
`SCAN_HANDSHAKE_ERROR` with `nil` data and the wrapped error; on success run
the deferred close handler and return `TryGetScanStatus(nil)` (success) with
the log object and a `nil` error. -/
def handshakePhase (cfg : ClientConfig) (target : String) (w : World) :
    ScanResult :=
  match NewClientConn cfg bannerCallback {} w.driver with
  | (_, some e) =>
    .ret .handshake_error none
      (some (wrapErr "failed to create SSH client connection: " e)) []
  | (d, none) =>
    .ret (TryGetScanStatus none) (some d) none (closeLogging target w.closeErr)

/-- The post-assembly body of `Scan` (`modules/ssh.go` lines 126-151): dial;
on dial error return `TryGetScanStatus` of the wrapped error with `nil`
data; if a connect timeout is configured, set the connection deadline,
returning `TryGetScanStatus` of the wrapped error on failure; then run the
handshake tail. -/
def scanConn (cfg : ClientConfig) (target : String) (connectTimeout : Nat)
    (w : World) : ScanResult :=
  match w.dial with
  | some e =>
    let e' := wrapErr ("failed to dial target " ++ target ++ ": ") e
    .ret (TryGetScanStatus (some e')) none (some e') []
  | none =>
    if connectTimeout != 0 then
      match w.setDeadlineErr with
      | some e =>
        let e' := wrapErr "failed to set connection deadline: " e
        .ret (TryGetScanStatus (some e')) none (some e') []
      | none => handshakePhase cfg target w
    else handshakePhase cfg target w

/-- `(*SSHScanner).Scan` (`modules/ssh.go`): assemble the configuration —
aborting the whole process via `log.Fatal` before any dialing on a setter
error — then run the connection body. The `dialerInvoked` component records
whether `dialGroup.Dial` was reached. -/
def scan (f : SSHFlags) (target : String) (w : World) : ScanTrace :=
  match buildConfig f with
  | .error e => ⟨.fatal e, false⟩
  | .ok cfg => ⟨scanConn cfg target f.ConnectTimeout w, true⟩

/-- The flag values of `modules/ssh.go` with every algorithm preference at
its documented default (the `default:` struct tags), and a representative
non-zero connect timeout. -/
def defaultFlags : SSHFlags :=
  { ClientID := "SSH-2.0-Go"
    KexAlgorithms := "curve25519-sha256,curve25519-sha256@libssh.org,ecdh-sha2-nistp256,ecdh-sha2-nistp384,ecdh-sha2-nistp521,diffie-hellman-group14-sha256,diffie-hellman-group14-sha1,diffie-hellman-group1-sha1,diffie-hellman-group-exchange-sha256,diffie-hellman-group-exchange-sha1"
    HostKeyAlgorithms := "ssh-ed25519,ecdsa-sha2-nistp256,ecdsa-sha2-nistp384,ecdsa-sha2-nistp521,rsa-sha2-512,rsa-sha2-256,ssh-rsa,ssh-dss,ssh-ed25519-cert-v01@openssh.com,ecdsa-sha2-nistp256-cert-v01@openssh.com,ecdsa-sha2-nistp384-cert-v01@openssh.com,ecdsa-sha2-nistp521-cert-v01@openssh.com,rsa-sha2-512-cert-v01@openssh.com,rsa-sha2-256-cert-v01@openssh.com,ssh-rsa-cert-v01@openssh.com,ssh-dss-cert-v01@openssh.com"
    Ciphers := "chacha20-poly1305@openssh.com,aes128-gcm@openssh.com,aes256-gcm@openssh.com,aes128-ctr,aes192-ctr,aes256-ctr,aes128-cbc,arcfour256,arcfour128,arcfour,3des-cbc"
    MACs := "hmac-sha2-256-etm@openssh.com,hmac-sha2-256,hmac-sha1,hmac-sha1-96"
    ConnectTimeout := 10 }

/-- The configuration `buildConfig` assembles from `defaultFlags`. -/
def cfgDefault : ClientConfig :=
  { Timeout := 10
    ClientVersion := "SSH-2.0-Go"
    KeyExchanges := supportedKexAlgos
    HostKeyAlgorithms := supportedHostKeyAlgos
    Ciphers := supportedCiphers
    MACs := supportedMACs
    DontAuthenticate := true
    GexMinBits := 1024
    GexMaxBits := 8192
    GexPreferredBits := 2048 }

/-- Default flags except for an unsupported cipher token, the end-to-end
misconfiguration scenario of the spec. -/
def bogusFlags : SSHFlags := { defaultFlags with Ciphers := "bogus-cipher" }

/-- A world where the dial exceeds the configured timeout. -/
def wDialTimeout : World := { dial := some ⟨.timeoutErr, "i/o timeout"⟩ }

/-- A world where the banner arrives and the handshake then hits the
connection deadline. -/
def wHandshakeTimeout : World :=
  { driver := { banner := some "SSH-2.0-OpenSSH_9.0\r\n"
                result := some ⟨.timeoutErr, "i/o timeout"⟩ } }

/-- A world where the server sends its version banner and then closes the
connection, so the handshake fails right after the banner was recorded. -/
def wBannerThenClose : World :=
  { driver := { banner := some "SSH-2.0-OpenSSH_9.0\r\n"
                result := some ⟨.otherErr, "EOF"⟩ } }

/-- A world where the handshake completes. -/
def wSuccess : World :=
  { driver := { banner := some "SSH-2.0-OpenSSH_9.0\r\n"
                kex := "curve25519-sha256"
                hostKeyAlg := "ssh-ed25519"
                cipher := "aes128-ctr"
                mac := "hmac-sha2-256" } }

/-- The accumulator invariant of the `validateAlgorithms` loop: when every
remaining token is supported, the loop succeeds with the accumulator
followed by the remaining tokens. -/
theorem validateAlgorithmsLoop_all_valid (sup : List String) (ts : List String) :
    ∀ acc, (∀ t ∈ ts, contains sup t = true) →
      validateAlgorithmsLoop sup ts acc = .ok (acc ++ ts) := by
  induction ts with
  | nil => intro acc _; simp [validateAlgorithmsLoop]
  | cons a rest ih =>
    intro acc h
    have ha : contains sup a = true := h a (by simp)
    have hr : ∀ t ∈ rest, contains sup t = true := fun t ht => h t (by simp [ht])
    simp [validateAlgorithmsLoop, ha, ih (acc ++ [a]) hr]

/-- When some remaining token is unsupported, the loop fails with the
message naming the first such token, whatever the accumulator holds. -/
theorem validateAlgorithmsLoop_first_invalid (sup : List String) (ts : List String) :
    ∀ acc t, ts.find? (fun a => !(contains sup a)) = some t →
      validateAlgorithmsLoop sup ts acc = .error (algNotSupportedMsg t) := by
  induction ts with
  | nil => intro acc t h; simp at h
  | cons a rest ih =>
    intro acc t h
    by_cases ha : contains sup a = true
    · rw [List.find?_cons_of_neg _ (by simp [ha])] at h
      simp [validateAlgorithmsLoop, ha, ih (acc ++ [a]) t h]
    · have ha' : contains sup a = false := by
        cases hc : contains sup a
        · rfl
        · exact absurd hc ha
      rw [List.find?_cons_of_pos _ (by simp [ha'])] at h
      cases h
      simp [validateAlgorithmsLoop, ha']

/-- C3: for every comma-separated input string all of whose tokens are
members of the supported catalog set, `validateAlgorithms` succeeds and
returns exactly the input token sequence — same tokens, same order,
duplicates retained, nothing dropped or reordered. -/
theorem validateAlgorithms_ok_on_all_valid (value : String) (sup : List String)
    (h : ∀ t ∈ goSplitComma value, contains sup t = true) :
    validateAlgorithms value sup = .ok (goSplitComma value) := by
  unfold validateAlgorithms
  simpa using validateAlgorithmsLoop_all_valid sup (goSplitComma value) [] h

/-- Witness for C3: a duplicate-carrying all-valid MAC preference string is
returned verbatim. -/
theorem validateAlgorithms_ok_on_all_valid_witness :
    validateAlgorithms "hmac-sha2-256,hmac-sha1,hmac-sha2-256" supportedMACs =
      .ok ["hmac-sha2-256", "hmac-sha1", "hmac-sha2-256"] := by
  have h := validateAlgorithms_ok_on_all_valid
    "hmac-sha2-256,hmac-sha1,hmac-sha2-256" supportedMACs (by decide)
  simpa using h

/-- C4: for every input string containing at least one comma-separated
token outside the supported catalog set, `validateAlgorithms` returns an
error naming the first offending token and no list at all (Go returns
`nil`, embedded as `Except.error`, never a partial prefix). -/
theorem validateAlgorithms_error_on_first_invalid (value : String)
    (sup : List String) (t : String)
    (h : (goSplitComma value).find? (fun a => !(contains sup a)) = some t) :
    validateAlgorithms value sup = .error (algNotSupportedMsg t) ∧
      ∀ l, validateAlgorithms value sup ≠ .ok l := by
  have h1 : validateAlgorithms value sup = .error (algNotSupportedMsg t) :=
    validateAlgorithmsLoop_first_invalid sup (goSplitComma value) [] t h
  refine ⟨h1, fun l hl => ?_⟩
  rw [h1] at hl
  exact Except.noConfusion hl

/-- Witness for C4: the middle token `bogus` is the first unsupported one
and is the one named in the error. -/
theorem validateAlgorithms_error_on_first_invalid_witness :
    validateAlgorithms "hmac-sha1,bogus,hmac-sha1-96" supportedMACs =
      .error (algNotSupportedMsg "bogus") :=
  (validateAlgorithms_error_on_first_invalid "hmac-sha1,bogus,hmac-sha1-96"
    supportedMACs "bogus" (by decide)).1

/-- Counterexample to C5: applied to the empty string, `validateAlgorithms`
does not succeed with an empty list — `strings.Split("", ",")` yields the
single empty token, which is not catalog-valid, so validation fails with an
error naming the empty token. -/
theorem validateAlgorithms_empty_string_fails :
    validateAlgorithms "" supportedKexAlgos = .error (algNotSupportedMsg "") :=
  rfl

/-- C5 as amended: on the empty string `validateAlgorithms` fails with the
"algorithm not supported" error naming the empty token (for any catalog not
containing the empty identifier), rather than succeeding with an empty
list; and tokens are matched exactly as split on commas with no whitespace
trimming, so the catalog-valid identifier `curve25519-sha256` surrounded by
a space is rejected. -/
theorem validateAlgorithms_empty_fails_and_no_trimming (sup : List String)
    (h : contains sup "" = false) :
    validateAlgorithms "" sup = .error (algNotSupportedMsg "") ∧
      contains supportedKexAlgos "curve25519-sha256" = true ∧
      validateAlgorithms " curve25519-sha256" supportedKexAlgos =
        .error (algNotSupportedMsg " curve25519-sha256") := by
  refine ⟨?_, by decide, by rfl⟩
  simp [validateAlgorithms, goSplitComma, splitCommaAux, validateAlgorithmsLoop, h]

/-- Witness for the amended C5, at the modelled key-exchange catalog. -/
theorem validateAlgorithms_empty_fails_and_no_trimming_witness :
    validateAlgorithms "" supportedKexAlgos = .error (algNotSupportedMsg "") ∧
      contains supportedKexAlgos "curve25519-sha256" = true ∧
      validateAlgorithms " curve25519-sha256" supportedKexAlgos =
        .error (algNotSupportedMsg " curve25519-sha256") :=
  validateAlgorithms_empty_fails_and_no_trimming supportedKexAlgos (by decide)

/-- C10: each of the four setters is atomic on error — when validation of
the input string fails, the setter returns exactly the validation error and
the `ClientConfig` is left untouched in every field. -/
theorem setters_atomic_on_error (c : ClientConfig) (v e : String) :
    (validateAlgorithms v supportedKexAlgos = .error e →
      SetKexAlgorithms c v = (some e, c)) ∧
    (validateAlgorithms v supportedHostKeyAlgos = .error e →
      SetHostKeyAlgorithms c v = (some e, c)) ∧
    (validateAlgorithms v supportedCiphers = .error e →
      SetCiphers c v = (some e, c)) ∧
    (validateAlgorithms v supportedMACs = .error e →
      SetMACs c v = (some e, c)) := by
  refine ⟨fun h => ?_, fun h => ?_, fun h => ?_, fun h => ?_⟩ <;>
    simp [SetKexAlgorithms, SetHostKeyAlgorithms, SetCiphers, SetMACs, h]

/-- Witness for C10: the token `bogus` fails validation against all four
catalogs, and each setter hands back the untouched configuration. -/
theorem setters_atomic_on_error_witness :
    SetKexAlgorithms MakeSSHConfig "bogus" = (some (algNotSupportedMsg "bogus"), MakeSSHConfig) ∧
    SetHostKeyAlgorithms MakeSSHConfig "bogus" = (some (algNotSupportedMsg "bogus"), MakeSSHConfig) ∧
    SetCiphers MakeSSHConfig "bogus" = (some (algNotSupportedMsg "bogus"), MakeSSHConfig) ∧
    SetMACs MakeSSHConfig "bogus" = (some (algNotSupportedMsg "bogus"), MakeSSHConfig) := by
  have h := setters_atomic_on_error MakeSSHConfig "bogus" (algNotSupportedMsg "bogus")
  exact ⟨h.1 rfl, h.2.1 rfl, h.2.2.1 rfl, h.2.2.2 rfl⟩

/-- C2: for every combination of operator-supplied flags, the
`ssh.ClientConfig` that `Scan` passes to the handshake driver has its
`DontAuthenticate` flag set to `true` — the never-authenticate policy is
hard-coded after all flag-derived fields and cannot be overridden by any
configuration input (and the modelled driver takes no credential input at
all). -/
theorem dontAuthenticate_unconditional (f : SSHFlags) (cfg : ClientConfig)
    (h : buildConfig f = .ok cfg) : cfg.DontAuthenticate = true := by
  simp only [buildConfig] at h
  repeat' split at h
  any_goals exact Except.noConfusion h
  injection h with h2
  subst h2
  rfl

/-- Witness for C2: the default flag set assembles successfully and the
assembled configuration carries `DontAuthenticate = true`. -/
theorem dontAuthenticate_unconditional_witness :
    buildConfig defaultFlags = .ok cfgDefault ∧ cfgDefault.DontAuthenticate = true :=
  ⟨rfl, dontAuthenticate_unconditional defaultFlags cfgDefault rfl⟩

/-- C9: whenever any of the four algorithm-preference validations fails,
`Scan` aborts as a fatal run-wide configuration error (`log.Fatal`) before
any network I/O — whatever the world would have answered, the dialer is
never invoked. -/
theorem validation_failure_aborts_before_dial (f : SSHFlags) (target : String)
    (w : World) (e : String) (h : buildConfig f = .error e) :
    scan f target w = ⟨.fatal e, false⟩ := by
  simp [scan, h]

/-- Witness for C9: the spec's `--ciphers bogus-cipher` scenario — assembly
fails with the `bogus-cipher` error and the dialer is never invoked. -/
theorem validation_failure_aborts_before_dial_witness :
    buildConfig bogusFlags = .error (algNotSupportedMsg "bogus-cipher") ∧
      scan bogusFlags "192.0.2.1:22" {} =
        ⟨.fatal (algNotSupportedMsg "bogus-cipher"), false⟩ :=
  ⟨rfl, validation_failure_aborts_before_dial bogusFlags "192.0.2.1:22" {}
    (algNotSupportedMsg "bogus-cipher") rfl⟩

/-- C1: evaluation at the failing input. When the server closes the
connection right after its version banner, the caller-owned log object does
hold the trimmed banner with all later fields empty, but `Scan` returns the
handshake-error status with `nil` data (`modules/ssh.go` line 139 returns
`nil`, not `data`), so the partially populated log is discarded rather than
returned. -/
theorem scan_discards_partial_log_on_handshake_error :
    scan defaultFlags "192.0.2.1:22" wBannerThenClose =
      ⟨.ret .handshake_error none
        (some ⟨.otherErr, "failed to create SSH client connection: EOF"⟩) [],
        true⟩ ∧
    (NewClientConn cfgDefault bannerCallback {} wBannerThenClose.driver).1 =
      { Banner := "SSH-2.0-OpenSSH_9.0" } :=
  ⟨rfl, rfl⟩

/-- Counterexample to C6: a deadline expiry during the handshake phase is
classified as handshake-error, not timeout — `Scan` returns
`SCAN_HANDSHAKE_ERROR` for every `ssh.NewClientConn` failure, even one whose
cause is the connection deadline. -/
theorem handshake_timeout_classified_as_handshake_error :
    (scan defaultFlags "192.0.2.1:22" wHandshakeTimeout).result =
      .ret .handshake_error none
        (some ⟨.timeoutErr, "failed to create SSH client connection: i/o timeout"⟩)
        [] ∧
    ScanStatus.handshake_error ≠ ScanStatus.timeout :=
  ⟨rfl, by decide⟩

/-- C6 as amended: a dial error caused by deadline expiry is classified as
the timeout status with no log returned; but an error during the handshake
phase — deadline expiry included — is classified as handshake-error,
because `Scan` maps every `ssh.NewClientConn` failure to
`SCAN_HANDSHAKE_ERROR` unconditionally. -/
theorem timeout_classification_per_phase (f : SSHFlags) (target : String)
    (w : World) (cfg : ClientConfig) (e : GoError)
    (hcfg : buildConfig f = .ok cfg) :
    (w.dial = some e → e.kind = .timeoutErr →
      (scan f target w).result.statusOf = some .timeout ∧
        (scan f target w).result.dataOf = some none) ∧
    (w.dial = none → w.setDeadlineErr = none →
      (NewClientConn cfg bannerCallback {} w.driver).2 = some e →
      (scan f target w).result.statusOf = some .handshake_error) := by
  constructor
  · intro hd hk
    simp [scan, hcfg, scanConn, hd, wrapErr, TryGetScanStatus, hk,
      ScanResult.statusOf, ScanResult.dataOf]
  · intro hd hdl hhs
    cases hN : NewClientConn cfg bannerCallback {} w.driver with
    | mk d r =>
      rw [hN] at hhs
      subst hhs
      by_cases hct : f.ConnectTimeout != 0 <;>
        simp [scan, hcfg, scanConn, hd, hdl, handshakePhase, hN, hct,
          ScanResult.statusOf]

/-- Witness for the amended C6: the dial-timeout world yields the timeout
status with no log, and the handshake-timeout world yields the
handshake-error status. -/
theorem timeout_classification_per_phase_witness :
    (scan defaultFlags "192.0.2.1:22" wDialTimeout).result.statusOf = some .timeout ∧
    (scan defaultFlags "192.0.2.1:22" wDialTimeout).result.dataOf = some none ∧
    (scan defaultFlags "192.0.2.1:22" wHandshakeTimeout).result.statusOf =
      some .handshake_error := by
  have h1 := timeout_classification_per_phase defaultFlags "192.0.2.1:22"
    wDialTimeout cfgDefault ⟨.timeoutErr, "i/o timeout"⟩ rfl
  have h2 := timeout_classification_per_phase defaultFlags "192.0.2.1:22"
    wHandshakeTimeout cfgDefault ⟨.timeoutErr, "i/o timeout"⟩ rfl
  exact ⟨(h1.1 rfl rfl).1, (h1.1 rfl rfl).2, h2.2 rfl rfl rfl⟩

/-- C7: after a successful handshake, the outcome of the deferred close can
never alter the already-determined returned status, data or error (the
return values of `Scan` are unnamed, so the deferred assignment to `err` is
invisible to the caller); a close error whose message contains
"use of closed network connection" is suppressed entirely, while any other
close error is only logged. -/
theorem close_error_never_alters_outcome (f : SSHFlags) (target : String)
    (w : World) (cfg : ClientConfig) (c : Option GoError)
    (hcfg : buildConfig f = .ok cfg)
    (hdial : w.dial = none) (hdl : w.setDeadlineErr = none)
    (hhs : (NewClientConn cfg bannerCallback {} w.driver).2 = none) :
    ((scan f target { w with closeErr := c }).result.statusOf =
        (scan f target { w with closeErr := none }).result.statusOf) ∧
    ((scan f target { w with closeErr := c }).result.dataOf =
        (scan f target { w with closeErr := none }).result.dataOf) ∧
    ((scan f target { w with closeErr := c }).result.errOf =
        (scan f target { w with closeErr := none }).result.errOf) ∧
    ((scan f target { w with closeErr := c }).result.statusOf = some .success) ∧
    (∀ ce, c = some ce →
      goContains ce.msg "use of closed network connection" = true →
      (scan f target { w with closeErr := c }).result.loggedOf = []) ∧
    (∀ ce, c = some ce →
      goContains ce.msg "use of closed network connection" = false →
      (scan f target { w with closeErr := c }).result.loggedOf =
        ["error closing SSH client for target " ++ target ++ ": " ++ ce.msg]) := by
  cases hN : NewClientConn cfg bannerCallback {} w.driver with
  | mk d r =>
    rw [hN] at hhs
    subst hhs
    by_cases hct : f.ConnectTimeout != 0 <;>
      refine ⟨?_, ?_, ?_, ?_, ?_, ?_⟩ <;>
        simp [scan, hcfg, scanConn, hdial, hdl, handshakePhase, hN, hct,
          TryGetScanStatus, closeLogging, ScanResult.statusOf, ScanResult.dataOf,
          ScanResult.errOf, ScanResult.loggedOf] <;>
      · intro ce hce hcont
        subst hce
        simp [hcont]

/-- Witness for C7: a successful handshake with a non-suppressed close
error keeps the success status, log and `nil` error, and logs exactly one
warning. -/
theorem close_error_never_alters_outcome_witness :
    ((scan defaultFlags "192.0.2.1:22" { wSuccess with closeErr := some ⟨.otherErr, "broken pipe"⟩ }).result.statusOf = some .success) ∧
    ((scan defaultFlags "192.0.2.1:22" { wSuccess with closeErr := some ⟨.otherErr, "broken pipe"⟩ }).result.errOf =
        (scan defaultFlags "192.0.2.1:22" { wSuccess with closeErr := none }).result.errOf) ∧
    ((scan defaultFlags "192.0.2.1:22" { wSuccess with closeErr := some ⟨.otherErr, "broken pipe"⟩ }).result.loggedOf =
        ["error closing SSH client for target 192.0.2.1:22: broken pipe"]) := by
  have h := close_error_never_alters_outcome defaultFlags "192.0.2.1:22"
    wSuccess cfgDefault (some ⟨.otherErr, "broken pipe"⟩) rfl rfl rfl rfl
  exact ⟨h.2.2.2.1, h.2.2.1, h.2.2.2.2.2 ⟨.otherErr, "broken pipe"⟩ rfl (by decide)⟩

/-- C8: the banner callback installed by `Scan` stores the banner with
surrounding whitespace trimmed into the log's `Banner` field and reports no
error; consequently the trimmed banner is in the caller-owned log object as
soon as the driver observes it, even when a later phase fails. -/
theorem bannerCallback_trims_and_stores (l : HandshakeLog) (s : String)
    (cfg : ClientConfig) (b : DriverBehavior) (hb : b.banner = some s) :
    bannerCallback l s = ({ l with Banner := goTrimSpace s }, none) ∧
    (NewClientConn cfg bannerCallback l b).1.Banner = goTrimSpace s := by
  refine ⟨rfl, ?_⟩
  cases hr : b.result <;>
    simp [NewClientConn, hb, hr, bannerCallback]

/-- Witness for C8: a banner wrapped in whitespace is stored trimmed, also
when the handshake then fails. -/
theorem bannerCallback_trims_and_stores_witness :
    goTrimSpace "  SSH-2.0-OpenSSH_9.0\r\n" = "SSH-2.0-OpenSSH_9.0" ∧
    (NewClientConn cfgDefault bannerCallback {} wBannerThenClose.driver).1.Banner =
      goTrimSpace "  SSH-2.0-OpenSSH_9.0\r\n" := by
  refine ⟨by decide, ?_⟩
  have h := bannerCallback_trims_and_stores {} "SSH-2.0-OpenSSH_9.0\r\n"
    cfgDefault wBannerThenClose.driver rfl
  rw [h.2]
  decide

end ZgrabSSH
